import Mathlib

/-!
Shallow embedding of the customer-retention replay/orchestration service
(Azure Durable Functions app).  Python floats are modelled as `ℚ`,
Python `None`-able values as `Option`, raised exceptions as `Except`.
Source files embedded: `src/shared/rules.py`, `src/shared/guardrails.py`,
`src/shared/aoai_text_matcher.py`, `src/functions/function_app.py` and the
per-function `__init__.py` modules.
-/

namespace Retention

/-- A rule hit as passed around the pipeline: `{rule_id, confidence, evidence_text}`.
`confidence`/`evidence_text` may be absent (Python `dict.get`). -/
structure RuleHit where
  rule_id : String
  confidence : Option ℚ
  evidence_text : Option String
  deriving Repr, DecidableEq

/-- Structured feature snapshot returned by `activity_fetch_structured`
(`src/functions/activity_fetch_structured/__init__.py`): every key is always
present, with `None` for missing data. -/
structure Features where
  customer_id : String
  current_rate : Option ℚ
  prev_rate : Option ℚ
  rate_diff : Option ℚ
  term_months : Option Int
  account_age_days : Option ℚ
  deriving Repr, DecidableEq

/-- One entry of the ruleset's `text_rules` mapping (from the YAML / SQL
ruleset): optional `id` override and optional `weight`. -/
structure TextRule where
  id : Option String
  weight : Option ℚ
  deriving Repr, DecidableEq

/-- The ruleset dict loaded by `load_active_ruleset` (`src/shared/rules.py`):
`weights` (sub-dict with optional `rate_diff` / `tenure` keys),
`confidence_floor`, `text_rules`, and the `version` key that the SQL path
writes into the dict. -/
structure Ruleset where
  weights_rate_diff : Option ℚ
  weights_tenure : Option ℚ
  confidence_floor : Option ℚ
  text_rules : List (String × TextRule)
  version : Option String
  deriving Repr, DecidableEq

/-- `text_result` dict produced by the text agent. -/
structure TextResult where
  rule_hits : List RuleHit
  llm_used : Option String
  ruleset_version : Option String
  deriving Repr, DecidableEq

/-- Python `str(x)` for an optional rational (`None` prints as `"None"`). -/
def pyStr : Option ℚ → String
  | none => "None"
  | some q => toString q

/-- Python `f"{q:.1f}"` on our rational model: one decimal digit. -/
def fmt1 (q : ℚ) : String :=
  let t : Int := ⌊q * 10⌋
  toString (t / 10) ++ "." ++ toString (t % 10).natAbs

/-- The rate-change explanation string built in `score_event`
(`src/shared/rules.py` line 46-48). -/
def rate_explanation (features : Features) : String :=
  "Rate change: " ++ pyStr features.prev_rate ++ " → " ++ pyStr features.current_rate
    ++ " (Δ=" ++ pyStr features.rate_diff ++ ")"

/-- The tenure explanation string built in `score_event`
(`src/shared/rules.py` line 53): `f"Tenure ~{months:.1f} months"`. -/
def tenure_explanation (months : ℚ) : String :=
  "Tenure ~" ++ fmt1 months ++ " months"

/-- The evidence explanation string built in `score_event`
(`src/shared/rules.py` line 64): `f'{rid} evidence: “{h["evidence_text"]}”'`. -/
def evidence_explanation (rid : String) (evidence : String) : String :=
  rid ++ " evidence: “" ++ evidence ++ "”"

/-- `ruleset.get("text_rules", {}).get(rid, {}).get("weight", 0.4)`
(`src/shared/rules.py` line 61). -/
def text_rule_weight (ruleset : Ruleset) (rid : String) : ℚ :=
  match (ruleset.text_rules.lookup rid) with
  | some r => r.weight.getD (4/10)
  | none => 4/10

/-- Fold over `hits` in `score_event` (`src/shared/rules.py` lines 56-64):
accumulates `text_score`, the kept hits, and the evidence explanations,
skipping hits whose confidence is below the floor. -/
def text_hits_fold (ruleset : Ruleset) (floor : ℚ) :
    List RuleHit → ℚ × List RuleHit × List String
  | [] => (0, [], [])
  | h :: rest =>
    let (s, kept, expl) := text_hits_fold ruleset floor rest
    let conf := h.confidence.getD 0
    if conf < floor then (s, kept, expl)
    else
      let w := text_rule_weight ruleset h.rule_id
      let e := match h.evidence_text with
        | some ev => if ev ≠ "" then [evidence_explanation h.rule_id ev] else []
        | none => []
      (conf * w + s, h :: kept, e ++ expl)

/-- Scoring details dict returned by `score_event`. -/
structure ScoreDetails where
  rule_hits_json : List RuleHit
  explanation_text : String
  agent_version : String
  deriving Repr, DecidableEq

/-- Core of `score_event(ruleset, text_result, features)` from
`src/shared/rules.py` lines 34-73: returns the clamped score, the kept text
hits, and the list of explanation strings in build order (rate change, then
tenure, then per-hit evidence).  Structured contributions: capped rate-diff
magnitude (`min(|rate_diff|/1.5, 1) * weights.rate_diff`, default weight 0.3)
and capped tenure (`min(months/6, 1) * weights.tenure`, default weight 0.1);
text contribution: confidence × per-rule weight, for hits at or above the
confidence floor (default 0.6).  The score is `max(0, min(text+structured, 1))`. -/
def score_event_core (ruleset : Ruleset) (text_result : TextResult)
    (features : Features) : ℚ × List RuleHit × List String :=
  let floor := ruleset.confidence_floor.getD (6/10)
  let hits := text_result.rule_hits
  let (s₁, e₁) := match features.rate_diff with
    | some rd => ((min (|rd| / (3/2)) 1) * (ruleset.weights_rate_diff.getD (3/10)),
        [rate_explanation features])
    | none => ((0 : ℚ), [])
  let (s₂, e₂) := match features.account_age_days with
    | some days =>
        let months := days / 30
        ((min (months / 6) 1) * (ruleset.weights_tenure.getD (1/10)),
          [tenure_explanation months])
    | none => ((0 : ℚ), [])
  let structured_score := s₁ + s₂
  let (text_score, text_hits_json, e₃) := text_hits_fold ruleset floor hits
  let score := max 0 (min (text_score + structured_score) 1)
  (score, text_hits_json, e₁ ++ e₂ ++ e₃)

/-- `score_event` (`src/shared/rules.py` lines 34-73) as called by the
evaluate activity: the score together with the `details` dict, whose
`explanation_text` joins the explanations with `" | "` and truncates to
1000 characters.  `agent_version` is the `AGENT_VERSION` env var, passed
here as a parameter (default `"v1"`). -/
def score_event (ruleset : Ruleset) (text_result : TextResult)
    (features : Features) (agent_version : String := "v1") : ℚ × ScoreDetails :=
  let (score, text_hits_json, explanations) :=
    score_event_core ruleset text_result features
  (score,
   { rule_hits_json := text_hits_json
     explanation_text := (String.intercalate " | " explanations).take 1000
     agent_version := agent_version })

/-! ## Ruleset loading (`src/shared/rules.py` lines 10-31) -/

/-- A row of the `rules_library` table as fetched by the SQL path of
`load_active_ruleset`. -/
structure RulesRow where
  ruleset_yaml : Option String
  version : String
  deriving Repr, DecidableEq

/-- The two shapes `load_active_ruleset` can return: the SQL path returns a
single ruleset dict (with its `version` key set), the YAML fallback path
returns a pair `(ruleset, version)`. -/
inductive LoadResult where
  | dict (ruleset : Ruleset)
  | pair (ruleset : Ruleset) (version : String)
  deriving Repr, DecidableEq

/-- `load_active_ruleset()` from `src/shared/rules.py` lines 10-31.
Environment/IO is passed in explicitly: `use_sql` is `USE_SQL_RULES == "1"`;
`fetch` is the outcome of `SqlClient().fetch_one(...)` (`.error` models the
`except Exception: pass`); `parse_yaml` parses the row's YAML text; `file_yaml`
is the parsed local `sample_rules.yaml`.  On the SQL path with a usable ACTIVE
row the function sets `ruleset["version"] = row["version"]` and returns the
dict alone; otherwise it falls through to the YAML file and returns the pair
`(y, y.get("version", "dev"))`. -/
def load_active_ruleset (use_sql : Bool) (fetch : Except Unit (Option RulesRow))
    (parse_yaml : String → Ruleset) (file_yaml : Ruleset) : LoadResult :=
  let fallback := LoadResult.pair file_yaml (file_yaml.version.getD "dev")
  if use_sql then
    match fetch with
    | .ok (some row) =>
      match row.ruleset_yaml with
      | some y =>
        if y ≠ "" then
          LoadResult.dict { parse_yaml y with version := some row.version }
        else fallback
      | none => fallback
    | .ok none => fallback
    | .error _ => fallback
  else fallback

/-- Caller shape 1: tuple unpacking `_RULESET, _RULESET_VERSION =
load_active_ruleset()` (`src/functions/function_app.py` line 24,
`src/functions/activity_call_text_agent/__init__.py` line 9).  Unpacking the
pair succeeds; unpacking a ruleset dict as a 2-tuple raises (iterating a dict
yields its keys, and these rulesets do not have exactly two keys), modelled
as `none`. -/
def unpack_as_pair : LoadResult → Option (Ruleset × String)
  | .dict _ => none
  | .pair r v => some (r, v)

/-- Caller shape 2: `ruleset["version"]`
(`src/functions/activity_evaluate_rules/__init__.py` line 26).  Indexing the
dict works (the SQL path always sets the key); indexing a `(ruleset, version)`
tuple with a string raises `TypeError`, modelled as `none`. -/
def index_version : LoadResult → Option String
  | .dict r => r.version
  | .pair _ _ => none

/-! ## Text guards and LLM matcher (`src/shared/guardrails.py`,
`src/shared/aoai_text_matcher.py`) -/

/-- `substring_evidence_guard(evidence, min_len=4)` from
`src/shared/guardrails.py`: true iff the evidence is a string whose stripped
length is at least `min_len` (a non-string / missing value fails). -/
def substring_evidence_guard (evidence : Option String) (min_len : ℕ := 4) : Bool :=
  match evidence with
  | some s => min_len ≤ s.trim.length
  | none => false

/-- `enforce_confidence_floors(hits, floor=0.5)` from
`src/shared/guardrails.py`: keeps hits whose confidence (default 0) is at
least the floor. -/
def enforce_confidence_floors (hits : List RuleHit) (floor : ℚ := 1/2) : List RuleHit :=
  hits.filter (fun h => floor ≤ h.confidence.getD 0)

/-- A raw hit as decoded from the LLM's JSON (`rule_id`, `confidence`,
`evidence_text` may each be missing or null). -/
structure RawHit where
  rule_id : Option String
  confidence : Option ℚ
  evidence_text : Option String
  deriving Repr, DecidableEq

/-- `_build_catalog` ids from `src/shared/aoai_text_matcher.py` lines 97-107:
for each `text_rules` entry, `r.get("id", key)`. -/
def allow_ids (ruleset : Ruleset) : List String :=
  ruleset.text_rules.map (fun p => p.2.id.getD p.1)

/-- `match_text_rules(text, ruleset)` from `src/shared/aoai_text_matcher.py`
lines 110-153.  The remote chat-completion call plus JSON decode is the
`llm : Except String (List RawHit)` parameter; the `try/except` replaces any
failure by `{"rule_hits": []}` and the function always returns normally.
Cleaning keeps hits whose id is in the catalog, whose confidence is at least
`CONFIDENCE_FLOOR` and whose stripped evidence has length at least
`EVIDENCE_MIN_LEN`. -/
def match_text_rules (confidence_floor : ℚ) (evidence_min_len : ℕ)
    (llm : Except String (List RawHit)) (ruleset : Ruleset) : TextResult :=
  let raw : List RawHit := match llm with
    | .ok hits => hits
    | .error _ => []
  let allow := allow_ids ruleset
  let cleaned := raw.filterMap (fun h =>
    let conf := h.confidence.getD 0
    let ev := (h.evidence_text.getD "").trim
    match h.rule_id with
    | some rid =>
      if rid ∈ allow ∧ confidence_floor ≤ conf ∧ evidence_min_len ≤ ev.length then
        some { rule_id := rid, confidence := some conf, evidence_text := some ev }
      else none
    | none => none)
  { rule_hits := cleaned, llm_used := none, ruleset_version := none }

/-- `activity_call_text_agent` (`src/functions/function_app.py` lines 59-78):
scrubs the note text (PII scrub left abstract — it does not affect hit
processing), calls `match_text_rules`, then applies the local guards and tags
the ruleset version.  It never raises: a failed LLM call is already absorbed
inside `match_text_rules`, so the activity outcome is always `.ok`. -/
def activity_call_text_agent (confidence_floor : ℚ) (evidence_min_len : ℕ)
    (llm : Except String (List RawHit)) (ruleset : Ruleset)
    (ruleset_version : String) : Except String TextResult :=
  let res := match_text_rules confidence_floor evidence_min_len llm ruleset
  let hits := res.rule_hits.filter (fun h => substring_evidence_guard h.evidence_text)
  let hits := enforce_confidence_floors hits
  .ok { res with rule_hits := hits, ruleset_version := some ruleset_version }

/-! ## Evaluate activity and orchestrator
(`src/functions/function_app.py` lines 32-55 and 81-109,
`src/functions/orchestrator_event_replay/__init__.py`,
`src/functions/activity_evaluate_rules/__init__.py`) -/

/-- An event as fed to the orchestrator: `{customer_id, note_id, ts, text}`
(timestamps modelled as rationals — seconds). -/
structure Event where
  customer_id : String
  note_id : String
  ts : ℚ
  text : String
  deriving Repr, DecidableEq

/-- Output dict of `activity_evaluate_rules`. -/
structure EvalOut where
  should_emit : Bool
  score : ℚ
  rule_hits_json : List RuleHit
  structured_snapshot_json : Features
  explanation_text : String
  agent_version : String
  ruleset_version : String
  note_id : String
  customer_id : String
  deriving Repr, DecidableEq

/-- `activity_evaluate_rules` (`src/functions/function_app.py` lines 81-109):
scores the event with the pre-loaded ruleset and sets
`should_emit = (score >= THRESHOLD)` where `THRESHOLD` is the
`LEAD_SCORE_THRESHOLD` env var (default 0.7), passed here as a parameter. -/
def activity_evaluate_rules (ruleset : Ruleset) (threshold : ℚ)
    (ruleset_version : String) (text_result : TextResult) (features : Features)
    (note_id : String) : EvalOut :=
  let (score, details) := score_event ruleset text_result features
  { should_emit := threshold ≤ score
    score := score
    rule_hits_json := details.rule_hits_json
    structured_snapshot_json := features
    explanation_text := details.explanation_text
    agent_version := details.agent_version
    ruleset_version := ruleset_version
    note_id := note_id
    customer_id := features.customer_id }

/-- Pipeline step labels, following the spec's state names for the code's
activity calls: `STARTED` (orchestration begun), `TEXT_MATCHED` (after
`activity_call_text_agent`), `FEATURES_FETCHED` (after
`activity_fetch_structured`), `EVALUATED` (after `activity_evaluate_rules`),
`CARD_WRITTEN` (after `activity_write_lead_card`), then `COMPLETED` /
`FAILED` terminal. -/
inductive Step where
  | STARTED | TEXT_MATCHED | FEATURES_FETCHED | EVALUATED
  | CARD_WRITTEN | FAILED | COMPLETED
  deriving Repr, DecidableEq

/-- Orchestrator return dict. -/
structure OrchOut where
  processed : Bool
  lead_emitted : Bool
  deriving Repr, DecidableEq

/-- `orchestrator_event_replay` (`src/functions/function_app.py` lines 32-55,
identical generator in `src/functions/orchestrator_event_replay/__init__.py`)
on the success path: call the text agent on the event, fetch structured
features for `{customer_id, event_ts}`, evaluate rules on
`{text_result, features, event}`, and call `activity_write_lead_card` iff
`eval_result.get("should_emit", False)`.  The text and feature activities are
external calls, passed as functions; the returned list records the executed
step sequence. -/
def orchestrator_event_replay (ruleset : Ruleset) (threshold : ℚ)
    (ruleset_version : String) (text_agent : Event → TextResult)
    (fetch_structured : String → ℚ → Features) (event : Event) :
    List Step × OrchOut :=
  let text_res := text_agent event
  let features := fetch_structured event.customer_id event.ts
  let eval_result := activity_evaluate_rules ruleset threshold ruleset_version
    text_res features event.note_id
  let steps := [Step.STARTED, Step.TEXT_MATCHED, Step.FEATURES_FETCHED, Step.EVALUATED]
    ++ (if eval_result.should_emit then [Step.CARD_WRITTEN] else [])
    ++ [Step.COMPLETED]
  (steps, { processed := true, lead_emitted := eval_result.should_emit })

/-- The orchestrator under failing activities.  The generator itself has no
`try/except` and no retry policy (`context.call_activity`, not
`call_activity_with_retry`), so an activity error propagates out of the
generator.  Modelled from the spec: the durable host then records the error
and marks the instance `FAILED` (the host is an external library, not code of
this repository).  Activity outcomes are `Except` values; the trace stops at
the failing step. -/
def orchestrator_event_replay_exc (ruleset : Ruleset) (threshold : ℚ)
    (ruleset_version : String) (text_agent : Except String TextResult)
    (fetch_structured : Except String Features) (event : Event) :
    List Step × Except String OrchOut :=
  match text_agent with
  | .error e => ([Step.STARTED, Step.FAILED], .error e)
  | .ok text_res =>
    match fetch_structured with
    | .error e => ([Step.STARTED, Step.TEXT_MATCHED, Step.FAILED], .error e)
    | .ok features =>
      let eval_result := activity_evaluate_rules ruleset threshold ruleset_version
        text_res features event.note_id
      let steps := [Step.STARTED, Step.TEXT_MATCHED, Step.FEATURES_FETCHED, Step.EVALUATED]
        ++ (if eval_result.should_emit then [Step.CARD_WRITTEN] else [])
        ++ [Step.COMPLETED]
      (steps, .ok { processed := true, lead_emitted := eval_result.should_emit })

/-! ## Replay submission endpoint
(`src/functions/http_start_replay/__init__.py`, duplicated as
`http_start_replay` in `src/functions/function_app.py` lines 186-203) -/

/-- The replay request body once JSON-decoded: `from_ts`, `to_ts`
(timestamps, modelled as rationals — seconds), optional `accelerate`
(default 120 downstream) and optional `batch_size` (default 1000
downstream). -/
structure ReplayBody where
  from_ts : ℚ
  to_ts : ℚ
  accelerate : Option ℚ
  batch_size : Option ℕ
  deriving Repr, DecidableEq

/-- An HTTP response: status code and body text. -/
structure HttpResp where
  status : ℕ
  body : String
  deriving Repr, DecidableEq

/-- `start_replay(req)` from `src/functions/http_start_replay/__init__.py`
lines 12-30: inside a single `try`, decode the JSON body (`get_json` —
`.error` models a malformed body), create the queue and enqueue the body
(`send` — `.error` models a storage failure), then return 202
`"Replay scheduled"`; the single `except` handler returns 500 with `str(e)`
for any exception.  No field of the body is inspected or validated. -/
def start_replay (get_json : Except String ReplayBody)
    (send : ReplayBody → Except String Unit) : HttpResp :=
  match get_json with
  | .error e => { status := 500, body := e }
  | .ok b =>
    match send b with
    | .error e => { status := 500, body := e }
    | .ok _ => { status := 202, body := "Replay scheduled" }

/-! ## Replay worker (`src/functions/queue_replay_worker/__init__.py`,
duplicated as `queue_replay_worker` in `src/functions/function_app.py`
lines 206-227) -/

/-- A row of the `notes` table: `SELECT customer_id, note_id, created_ts as
ts, note_text as text FROM notes`. -/
structure Note where
  customer_id : String
  note_id : String
  ts : ℚ
  text : String
  deriving Repr, DecidableEq

/-- The ordering `ORDER BY created_ts ASC` sorts by. -/
def ts_le (a b : Note) : Prop := a.ts ≤ b.ts

instance : DecidableRel ts_le := fun a b => inferInstanceAs (Decidable (a.ts ≤ b.ts))

/-- `ORDER BY created_ts ASC` (insertion sort by timestamp). -/
def sort_by_ts (l : List Note) : List Note :=
  List.insertionSort ts_le l

/-- The worker's SQL query over the notes source:
`WHERE created_ts >= from_ts AND created_ts < to_ts ORDER BY created_ts ASC`. -/
def notes_query (notes : List Note) (from_ts to_ts : ℚ) : List Note :=
  sort_by_ts (notes.filter (fun n => from_ts ≤ n.ts ∧ n.ts < to_ts))

/-- `iter_query`'s chunking (`src/shared/sql_client.py` lines 57-60): the
result set in batches of `chunksize` rows. -/
def chunks (chunksize : ℕ) : List Note → List (List Note)
  | [] => []
  | x :: xs =>
    if chunksize = 0 then [x :: xs]
    else (x :: xs).take chunksize :: chunks chunksize ((x :: xs).drop chunksize)
  termination_by l => l.length
  decreasing_by
    simp [List.length_drop]
    omega

/-- The sleep executed before every orchestration start
(`await asyncio.sleep(0.02 / accelerate)`,
`src/functions/queue_replay_worker/__init__.py` line 36): a fixed
`0.02 / accelerate` seconds for every row, the event timestamps are not
consulted.  `accelerate = 0` raises `ZeroDivisionError`, modelled as `none`. -/
def replay_sleep (accelerate : ℚ) : Option ℚ :=
  if accelerate = 0 then none else some (2/100 / accelerate)

/-- One iteration of the worker's inner loop (`queue_replay_worker` lines
33-40): if no error occurred so far, sleep `0.02 / accelerate` (failing on
`accelerate = 0`) and start one orchestration for the row, appending its
note id to the list of started instances. -/
def worker_row_step (accelerate : ℚ) (acc : Except String (List String))
    (row : Note) : Except String (List String) :=
  acc.bind (fun started =>
    match replay_sleep accelerate with
    | none => .error "ZeroDivisionError: float division by zero"
    | some _ => .ok (started ++ [row.note_id]))

/-- `queue_replay_worker` (`src/functions/queue_replay_worker/__init__.py`
lines 13-40): decode the message, query the notes in `[from_ts, to_ts)` in
ascending ts order in batches of `batch_size`, and for each row sleep
`0.02 / accelerate` and then start one `orchestrator_event_replay` instance
with the row as input.  Returns the note ids of the started orchestrations in
start order, or the error if a sleep raises (`accelerate = 0` on a non-empty
window). -/
def queue_replay_worker (notes : List Note) (body : ReplayBody) :
    Except String (List String) :=
  let accelerate := body.accelerate.getD 120
  let batch_size := body.batch_size.getD 1000
  let rows := notes_query notes body.from_ts body.to_ts
  (chunks batch_size rows).foldl
    (fun acc batch => batch.foldl (worker_row_step accelerate) acc)
    (.ok [])

/-- The wall-clock delays the worker inserts before each start, in row order:
a fixed `0.02 / accelerate` for every row, including the first (only defined
when `accelerate ≠ 0`). -/
def worker_delays (rows : List Note) (accelerate : ℚ) : Option (List ℚ) :=
  match replay_sleep accelerate with
  | none => if rows.isEmpty then some [] else none
  | some d => some (rows.map (fun _ => d))

/-- The delays the spec prescribes for the Replay Scheduler: 0 for the first
event, then `(e[i].ts - e[i-1].ts) / compression_factor` between consecutive
events. -/
def spec_delays (rows : List Note) (compression_factor : ℚ) : List ℚ :=
  match rows with
  | [] => []
  | r :: rest => 0 :: (List.zipWith (fun a b => (b.ts - a.ts) / compression_factor)
      (r :: rest) rest)

/-- Cumulative start times from a list of delays (the wall-clock time at
which each orchestration start is issued). -/
def start_times (delays : List ℚ) : List ℚ :=
  (delays.scanl (· + ·) 0).drop 1

/-! ## Concrete fixtures used in witnesses and counterexamples -/

/-- Historical note at ts = 0 s. -/
def r1 : Note := ⟨"C1", "N1", 0, "note one"⟩
/-- Historical note at ts = 10 s. -/
def r2 : Note := ⟨"C2", "N2", 10, "note two"⟩
/-- Historical note at ts = 30 s. -/
def r3 : Note := ⟨"C3", "N3", 30, "note three"⟩

/-- Replay job over `[0, 100)` with compression factor 10. -/
def body1 : ReplayBody := ⟨0, 100, some 10, none⟩
/-- Replay job over `[0, 100)` with `accelerate = 0`. -/
def b6 : ReplayBody := ⟨0, 100, some 0, none⟩
/-- Replay job with `to_ts ≤ from_ts`. -/
def b7 : ReplayBody := ⟨100, 50, none, none⟩

/-- Enqueue that succeeds. -/
def send_ok : ReplayBody → Except String Unit := fun _ => .ok ()
/-- Enqueue that fails internally. -/
def send_fail : ReplayBody → Except String Unit := fun _ => .error "storage unavailable"

/-- The spec's worked-example ruleset: rule `high_fees` weight 0.5,
`rate_diff` weight 0.3, `tenure` weight 0.1, default confidence floor. -/
def rs8 : Ruleset :=
  { weights_rate_diff := some (3/10), weights_tenure := some (1/10),
    confidence_floor := none,
    text_rules := [("high_fees", { id := none, weight := some (1/2) })],
    version := some "2024-06-01" }

/-- The spec's worked-example text result: one `high_fees` hit with
confidence 0.9. -/
def tr8 : TextResult :=
  { rule_hits := [⟨"high_fees", some (9/10),
      some "considering closing due to high fees"⟩],
    llm_used := none, ruleset_version := none }

/-- The spec's worked-example features: `rate_diff = 1.2`,
`account_age_days = 60`. -/
def f8 : Features :=
  { customer_id := "C1", current_rate := some (11/2), prev_rate := some (43/10),
    rate_diff := some (6/5), term_months := some 24, account_age_days := some 60 }

/-- The spec's worked-example event. -/
def ev8 : Event := ⟨"C1", "N1", 0, "considering closing due to high fees"⟩

/-- A ruleset whose single rule makes the score land exactly on 0.7. -/
def rsW : Ruleset :=
  { weights_rate_diff := none, weights_tenure := none, confidence_floor := some 0,
    text_rules := [("keyword", { id := none, weight := some (7/10) })],
    version := none }

/-- A text result with one full-confidence `keyword` hit. -/
def trW : TextResult :=
  { rule_hits := [{ rule_id := "keyword", confidence := some 1, evidence_text := none }],
    llm_used := none, ruleset_version := none }

/-- A text result with no hits. -/
def trE : TextResult := { rule_hits := [], llm_used := none, ruleset_version := none }

/-- A feature snapshot with no structured data. -/
def fW : Features := ⟨"C9", none, none, none, none, none⟩

/-- An arbitrary live event. -/
def ev0 : Event := ⟨"C9", "N9", 5, "hello"⟩

/-- An ACTIVE `rules_library` row with non-empty YAML. -/
def rowA : RulesRow := ⟨some "weights: {}", "2024-05-01"⟩

/-- A YAML resolver for the fixtures. -/
def parseA : String → Ruleset := fun _ => rsW

/-! ## Helper lemmas -/

theorem worker_row_step_error (a : ℚ) (e : String) (r : Note) :
    worker_row_step a (.error e) r = .error e := rfl

theorem foldl_rows_error (a : ℚ) (e : String) (l : List Note) :
    l.foldl (worker_row_step a) (.error e) = .error e := by
  induction l with
  | nil => rfl
  | cons r rest ih => simpa [worker_row_step_error] using ih

theorem foldl_batches_error (a : ℚ) (e : String) (bs : List (List Note)) :
    bs.foldl (fun acc batch => batch.foldl (worker_row_step a) acc) (.error e)
      = .error e := by
  induction bs with
  | nil => rfl
  | cons b rest ih => simpa [foldl_rows_error] using ih

theorem worker_row_step_ok {a : ℚ} (h : a ≠ 0) (s : List String) (r : Note) :
    worker_row_step a (.ok s) r = .ok (s ++ [r.note_id]) := by
  simp [worker_row_step, replay_sleep, h, Except.bind]

theorem foldl_rows_ok {a : ℚ} (h : a ≠ 0) (l : List Note) (s : List String) :
    l.foldl (worker_row_step a) (.ok s) = .ok (s ++ l.map (·.note_id)) := by
  induction l generalizing s with
  | nil => simp
  | cons r rest ih => simp [worker_row_step_ok h, ih]

theorem foldl_batches_ok {a : ℚ} (h : a ≠ 0) (bs : List (List Note)) (s : List String) :
    bs.foldl (fun acc batch => batch.foldl (worker_row_step a) acc) (.ok s)
      = .ok (s ++ bs.flatten.map (·.note_id)) := by
  induction bs generalizing s with
  | nil => simp
  | cons b rest ih => simp [foldl_rows_ok h, ih]

theorem chunks_join (n : ℕ) : ∀ l : List Note, (chunks n l).flatten = l
  | [] => by simp [chunks]
  | x :: xs => by
    rw [chunks]
    split
    · simp
    · have := chunks_join n ((x :: xs).drop n)
      simp [this]
  termination_by l => l.length
  decreasing_by
    simp [List.length_drop]
    omega

/-! ## Claim theorems -/

/-- C3: for every ruleset, every list of rule hits and every feature record
(including negative or absent `rate_diff` / `account_age_days`), the score
returned by `score_event` lies in the closed interval `[0, 1]`. -/
theorem score_event_in_unit_interval (ruleset : Ruleset) (tr : TextResult)
    (features : Features) (av : String) :
    0 ≤ (score_event ruleset tr features av).1 ∧
      (score_event ruleset tr features av).1 ≤ 1 := by
  rcases hsc : score_event_core ruleset tr features with ⟨sc, kept, expl⟩
  have hfst : (score_event ruleset tr features av).1 = sc := by
    simp [score_event, hsc]
  rw [hfst]
  unfold score_event_core at hsc
  rcases hr : features.rate_diff with _ | rd <;>
    rcases ha : features.account_age_days with _ | days <;>
      rcases htf : text_hits_fold ruleset (ruleset.confidence_floor.getD (6/10))
          tr.rule_hits with ⟨a, b, c⟩ <;>
        · simp only [hr, ha, htf] at hsc
          obtain ⟨h1, -, -⟩ := Prod.mk.injEq .. ▸ hsc
          rw [← h1]
          exact ⟨le_max_left 0 _, max_le zero_le_one (min_le_right _ 1)⟩

/-- C2: for every event processed by the orchestrator (success path), the
executed step sequence is exactly
`[STARTED, TEXT_MATCHED, FEATURES_FETCHED, EVALUATED, COMPLETED]`, with
`CARD_WRITTEN` inserted before `COMPLETED` exactly when the score is at or
above the threshold — never any other order or omission. -/
theorem orchestrator_step_sequence (ruleset : Ruleset) (threshold : ℚ)
    (version : String) (text_agent : Event → TextResult)
    (fetch_structured : String → ℚ → Features) (event : Event) :
    (threshold ≤ (score_event ruleset (text_agent event)
        (fetch_structured event.customer_id event.ts)).1 →
      (orchestrator_event_replay ruleset threshold version text_agent
          fetch_structured event).1
        = [Step.STARTED, Step.TEXT_MATCHED, Step.FEATURES_FETCHED,
           Step.EVALUATED, Step.CARD_WRITTEN, Step.COMPLETED]) ∧
    ((score_event ruleset (text_agent event)
        (fetch_structured event.customer_id event.ts)).1 < threshold →
      (orchestrator_event_replay ruleset threshold version text_agent
          fetch_structured event).1
        = [Step.STARTED, Step.TEXT_MATCHED, Step.FEATURES_FETCHED,
           Step.EVALUATED, Step.COMPLETED]) := by
  constructor
  · intro h
    simp [orchestrator_event_replay, activity_evaluate_rules, h]
  · intro h
    simp [orchestrator_event_replay, activity_evaluate_rules, not_le.mpr h]

/-- Witness for C2 at a concrete input: with no rule hits and no structured
features the score is 0, below the threshold 0.7, and the recorded sequence
is the five-step one without `CARD_WRITTEN`. -/
theorem orchestrator_step_sequence_witness :
    (score_event rsW ((fun (_ : Event) => trE) ev0)
        ((fun (_ : String) (_ : ℚ) => fW) ev0.customer_id ev0.ts)).1 < 7/10 ∧
    (orchestrator_event_replay rsW (7/10) "v" (fun _ => trE)
        (fun _ _ => fW) ev0).1
      = [Step.STARTED, Step.TEXT_MATCHED, Step.FEATURES_FETCHED,
         Step.EVALUATED, Step.COMPLETED] := by
  have hscore : (score_event rsW trE fW).1 = 0 := by
    simp [score_event, score_event_core, text_hits_fold, trE, fW]
  constructor
  · show (score_event rsW trE fW).1 < 7/10
    rw [hscore]; norm_num
  · exact (orchestrator_step_sequence rsW (7/10) "v" (fun _ => trE)
      (fun _ _ => fW) ev0).2 (by rw [hscore]; norm_num)

/-- C4: the card-write step is taken if and only if the score is at or above
the threshold; a score exactly equal to the threshold writes a card, a score
strictly below does not, and the persistence activity is invoked exactly once
when writing. -/
theorem card_written_iff_threshold (ruleset : Ruleset) (threshold : ℚ)
    (version : String) (text_agent : Event → TextResult)
    (fetch_structured : String → ℚ → Features) (event : Event) :
    (Step.CARD_WRITTEN ∈ (orchestrator_event_replay ruleset threshold version
        text_agent fetch_structured event).1
      ↔ threshold ≤ (score_event ruleset (text_agent event)
          (fetch_structured event.customer_id event.ts)).1) ∧
    ((score_event ruleset (text_agent event)
        (fetch_structured event.customer_id event.ts)).1 = threshold →
      Step.CARD_WRITTEN ∈ (orchestrator_event_replay ruleset threshold version
        text_agent fetch_structured event).1) ∧
    ((score_event ruleset (text_agent event)
        (fetch_structured event.customer_id event.ts)).1 < threshold →
      Step.CARD_WRITTEN ∉ (orchestrator_event_replay ruleset threshold version
        text_agent fetch_structured event).1) ∧
    ((orchestrator_event_replay ruleset threshold version text_agent
        fetch_structured event).1.count Step.CARD_WRITTEN
      = if threshold ≤ (score_event ruleset (text_agent event)
          (fetch_structured event.customer_id event.ts)).1 then 1 else 0) := by
  by_cases h : threshold ≤ (score_event ruleset (text_agent event)
      (fetch_structured event.customer_id event.ts)).1
  · refine ⟨?_, fun _ => ?_, fun hlt => absurd h (not_le.mpr hlt), ?_⟩ <;>
      simp [orchestrator_event_replay, activity_evaluate_rules, h, List.count_cons]
  · refine ⟨?_, fun he => absurd (he ▸ le_refl threshold) h, fun _ => ?_, ?_⟩ <;>
      simp [orchestrator_event_replay, activity_evaluate_rules, h, List.count_cons]

/-- Witness for C4 at a concrete input: a single full-confidence hit on a
rule of weight 0.7 gives score exactly 0.7 = threshold, and the card is
written exactly once. -/
theorem card_written_iff_threshold_witness :
    (score_event rsW ((fun (_ : Event) => trW) ev0)
        ((fun (_ : String) (_ : ℚ) => fW) ev0.customer_id ev0.ts)).1 = 7/10 ∧
    Step.CARD_WRITTEN ∈ (orchestrator_event_replay rsW (7/10) "v"
        (fun _ => trW) (fun _ _ => fW) ev0).1 ∧
    (orchestrator_event_replay rsW (7/10) "v" (fun _ => trW)
        (fun _ _ => fW) ev0).1.count Step.CARD_WRITTEN = 1 := by
  have hscore : (score_event rsW trW fW).1 = 7/10 := by
    simp [score_event, score_event_core, text_hits_fold, text_rule_weight,
      rsW, trW, fW]
    norm_num
  obtain ⟨-, h2, -, h4⟩ := card_written_iff_threshold rsW (7/10) "v"
    (fun _ => trW) (fun _ _ => fW) ev0
  exact ⟨hscore, h2 hscore, by rw [h4]; simp [hscore]⟩

/-- C5 counterexample: a failing LLM call inside the text-match activity is
caught (`src/shared/aoai_text_matcher.py` lines 128-139) and converted into a
successful step outcome with zero rule hits — the activity failure silently
yields a successful step outcome, contradicting the claim. -/
theorem llm_failure_silent_success_counterexample :
    activity_call_text_agent (6/10) 4
        (.error "APIConnectionError: Connection error.") rs8 "2024-06-01"
      = .ok { rule_hits := [], llm_used := none,
              ruleset_version := some "2024-06-01" } := rfl

/-- C5 amended: the orchestrator configures no retry policy, so an uncaught
activity error stops the pipeline at the failed step with the error recorded
and the instance `FAILED`; but a failure of the LLM call inside the
text-match step is caught and replaced by a successful result with zero rule
hits, so that external-call failure silently yields a successful step
outcome. -/
theorem activity_failure_semantics_amended (e : String) (ruleset : Ruleset)
    (threshold : ℚ) (version : String) (fetch : Except String Features)
    (event : Event) (floor : ℚ) (min_len : ℕ) (rs₂ : Ruleset) (ver : String) :
    orchestrator_event_replay_exc ruleset threshold version (.error e) fetch event
      = ([Step.STARTED, Step.FAILED], .error e) ∧
    (match_text_rules floor min_len (.error e) rs₂).rule_hits = [] ∧
    activity_call_text_agent floor min_len (.error e) rs₂ ver
      = .ok { rule_hits := [], llm_used := none, ruleset_version := some ver } :=
  ⟨rfl, rfl, rfl⟩

/-- C7: a replay job with `to_ts ≤ from_ts` starts zero orchestration
instances and completes successfully (an empty run), not an error. -/
theorem empty_window_ok (notes : List Note) (body : ReplayBody)
    (h : body.to_ts ≤ body.from_ts) :
    queue_replay_worker notes body = .ok [] := by
  have hfil : notes.filter
      (fun n => decide (body.from_ts ≤ n.ts ∧ n.ts < body.to_ts)) = [] := by
    rw [List.filter_eq_nil_iff]
    intro n _
    simp only [decide_eq_true_eq, not_and, not_lt]
    intro h1
    exact le_trans h h1
  have hq : notes_query notes body.from_ts body.to_ts = [] := by
    unfold notes_query sort_by_ts
    rw [hfil]
    rfl
  unfold queue_replay_worker
  rw [hq]
  simp [chunks]

/-- Witness for C7: a job over `[100, 50)` (so `to_ts ≤ from_ts`) on a
one-note table starts nothing and returns an empty success. -/
theorem empty_window_ok_witness :
    b7.to_ts ≤ b7.from_ts ∧ queue_replay_worker [r2] b7 = .ok [] :=
  ⟨by norm_num [b7], empty_window_ok [r2] b7 (by norm_num [b7])⟩

/-- The first batch produced by `chunks` on a non-empty list starts with the
list's first row. -/
theorem chunks_cons (n : ℕ) (x : Note) (xs : List Note) :
    ∃ t bs, chunks n (x :: xs) = (x :: t) :: bs := by
  rw [chunks]
  split
  · exact ⟨xs, [], rfl⟩
  · rcases n with _ | m
    · simp_all
    · exact ⟨xs.take m, chunks (m + 1) ((x :: xs).drop (m + 1)), by simp⟩

/-- C6 counterexample: a replay job with `accelerate = 0` (so
`compression_factor ≤ 0`) is accepted with status 202 by the submission
endpoint — it is not rejected at job-acceptance time. -/
theorem accelerate_zero_accepted_counterexample :
    b6.accelerate.getD 120 ≤ 0 ∧
    start_replay (.ok b6) send_ok = ⟨202, "Replay scheduled"⟩ := by
  constructor
  · norm_num [b6]
  · rfl

/-- C6 amended: neither the submission endpoint nor the worker validates the
compression factor: any well-formed body is accepted with 202 whenever the
enqueue succeeds, and a job with `accelerate = 0` over a non-empty window
later fails in the worker with a `ZeroDivisionError` at the first event. -/
theorem no_accelerate_validation_amended (body : ReplayBody)
    (send : ReplayBody → Except String Unit) (notes : List Note) :
    (send body = .ok () → start_replay (.ok body) send
      = ⟨202, "Replay scheduled"⟩) ∧
    (body.accelerate = some 0 →
      notes_query notes body.from_ts body.to_ts ≠ [] →
      queue_replay_worker notes body
        = .error "ZeroDivisionError: float division by zero") := by
  constructor
  · intro h
    simp [start_replay, h]
  · intro ha hne
    unfold queue_replay_worker
    rcases hq : notes_query notes body.from_ts body.to_ts with _ | ⟨r, rest⟩
    · exact absurd hq hne
    · dsimp only
      obtain ⟨t, bs, hch⟩ := chunks_cons (body.batch_size.getD 1000) r rest
      rw [hch]
      have hacc : body.accelerate.getD 120 = 0 := by rw [ha]; rfl
      rw [hacc]
      have hstep : worker_row_step 0 (.ok []) r
          = .error "ZeroDivisionError: float division by zero" := by
        simp [worker_row_step, replay_sleep, Except.bind]
      simp only [List.foldl_cons, hstep, foldl_rows_error, foldl_batches_error]

/-- Witness for C6 amended: the concrete job `b6` (`accelerate = 0`, window
`[0, 100)`) is accepted with 202, and the worker then fails with a division
error on the one-note table. -/
theorem no_accelerate_validation_amended_witness :
    send_ok b6 = .ok () ∧ b6.accelerate = some 0 ∧
    notes_query [r2] b6.from_ts b6.to_ts ≠ [] ∧
    start_replay (.ok b6) send_ok = ⟨202, "Replay scheduled"⟩ ∧
    queue_replay_worker [r2] b6
      = .error "ZeroDivisionError: float division by zero" := by
  have hne : notes_query [r2] b6.from_ts b6.to_ts ≠ [] := by
    have : notes_query [r2] b6.from_ts b6.to_ts = [r2] := by
      unfold notes_query sort_by_ts
      norm_num [b6, r2, List.insertionSort]
    simp [this]
  obtain ⟨h1, h2⟩ := no_accelerate_validation_amended b6 send_ok [r2]
  exact ⟨rfl, rfl, hne, h1 rfl, h2 rfl hne⟩

/-- C1 counterexample: for events at ts = 0 s, 10 s, 30 s and compression
factor 10, the worker's delays are a fixed 0.02/10 = 1/500 s before every
event (first included), not the inter-arrival gaps
`[0, 1, 2]` the claim prescribes, so the starts are issued at
1/500, 2/500, 3/500 s — not at ≈0 s, ≈1 s, ≈3 s. -/
theorem worker_fixed_sleep_counterexample :
    worker_delays [r1, r2, r3] 10 = some [1/500, 1/500, 1/500] ∧
    spec_delays [r1, r2, r3] 10 = [0, 1, 2] ∧
    start_times [1/500, 1/500, 1/500] = [1/500, 2/500, 3/500] ∧
    start_times [0, 1, 2] = [0, 1, 3] ∧
    start_times [1/500, 1/500, 1/500] ≠ start_times [0, 1, 2] := by
  refine ⟨?_, ?_, ?_, ?_, ?_⟩ <;>
    norm_num [worker_delays, replay_sleep, spec_delays, start_times,
      List.scanl, r1, r2, r3]

/-- C1 amended: the delay inserted before starting each event's orchestration
(the first included) is the fixed value 0.02/accelerate, independent of the
event timestamps; one orchestration is started per note of the window, in
ascending-timestamp order. -/
theorem worker_fixed_delay_and_order (notes : List Note) (body : ReplayBody)
    (rows : List Note) (h : body.accelerate.getD 120 ≠ 0) :
    worker_delays rows (body.accelerate.getD 120)
      = some (List.replicate rows.length (2/100 / body.accelerate.getD 120)) ∧
    queue_replay_worker notes body
      = .ok ((notes_query notes body.from_ts body.to_ts).map (·.note_id)) ∧
    List.Sorted ts_le (notes_query notes body.from_ts body.to_ts) := by
  refine ⟨?_, ?_, ?_⟩
  · simp [worker_delays, replay_sleep, h, List.map_const']
  · unfold queue_replay_worker
    dsimp only
    rw [foldl_batches_ok h, chunks_join]
    simp
  · haveI : IsTotal Note ts_le := ⟨fun a b => le_total a.ts b.ts⟩
    haveI : IsTrans Note ts_le := ⟨fun _ _ _ hab hbc => le_trans hab hbc⟩
    exact List.sorted_insertionSort ts_le _

/-- Witness for C1 amended at the three fixture notes and compression
factor 10: the delays are three copies of 1/500 s and the worker starts
N1, N2, N3 in that order. -/
theorem worker_fixed_delay_and_order_witness :
    body1.accelerate.getD 120 ≠ 0 ∧
    worker_delays [r1, r2, r3] (body1.accelerate.getD 120)
      = some [1/500, 1/500, 1/500] ∧
    queue_replay_worker [r1, r2, r3] body1 = .ok ["N1", "N2", "N3"] := by
  have hne : body1.accelerate.getD 120 ≠ 0 := by norm_num [body1]
  obtain ⟨hd, hw, -⟩ := worker_fixed_delay_and_order [r1, r2, r3] body1
    [r1, r2, r3] hne
  refine ⟨hne, ?_, ?_⟩
  · rw [hd]
    norm_num [body1, List.replicate]
  · rw [hw]
    have : notes_query [r1, r2, r3] body1.from_ts body1.to_ts = [r1, r2, r3] := by
      unfold notes_query sort_by_ts
      norm_num [body1, r1, r2, r3, List.insertionSort, List.orderedInsert, ts_le]
    rw [this]
    rfl

/-- C8 counterexample: on the spec's worked example the score is 217/300
(≈ 0.723), not ≈ 0.783 — the spec's structured rate contribution
`min(1.2/1.5, 1) * 0.3` actually evaluates to 0.24, not 0.3. -/
theorem worked_example_score_counterexample :
    (score_event rs8 tr8 f8).1 = 217/300 ∧
    min ((6/5 : ℚ) / (3/2)) 1 * (3/10) = 6/25 ∧
    ((6/25 : ℚ) ≠ 3/10) ∧
    ¬ |(217 : ℚ)/300 - 783/1000| < 1/100 := by
  refine ⟨?_, by norm_num [min_def], by norm_num,
    by rw [abs_sub_lt_iff]; norm_num⟩
  simp [score_event, score_event_core, text_hits_fold, text_rule_weight,
    rs8, tr8, f8, List.lookup]
  norm_num [min_def, abs]

/-- C8 amended: on the spec's worked example the structured contribution is
0.24 + 1/30 and the text contribution 0.45, a total of 217/300 ≈ 0.723; that
is still at or above the 0.7 threshold, so the lead card is written, with an
explanation listing the rate change, the tenure, and the matched evidence. -/
theorem worked_example_amended :
    (score_event rs8 tr8 f8).1 = 217/300 ∧
    (7/10 : ℚ) ≤ 217/300 ∧
    (activity_evaluate_rules rs8 (7/10) "2024-06-01" tr8 f8 "N1").should_emit
      = true ∧
    Step.CARD_WRITTEN ∈ (orchestrator_event_replay rs8 (7/10) "2024-06-01"
        (fun _ => tr8) (fun _ _ => f8) ev8).1 ∧
    (score_event_core rs8 tr8 f8).2.2
      = [rate_explanation f8, tenure_explanation (60/30),
         evidence_explanation "high_fees"
           "considering closing due to high fees"] := by
  have hscore : (score_event rs8 tr8 f8).1 = 217/300 := by
    simp [score_event, score_event_core, text_hits_fold, text_rule_weight,
      rs8, tr8, f8, List.lookup]
    norm_num [min_def, abs]
  have hle : (7/10 : ℚ) ≤ 217/300 := by norm_num
  have hemit : (activity_evaluate_rules rs8 (7/10) "2024-06-01" tr8 f8
      "N1").should_emit = true := by
    simp [activity_evaluate_rules, hscore]
    norm_num
  refine ⟨hscore, hle, hemit, ?_, ?_⟩
  · simp [orchestrator_event_replay, activity_evaluate_rules, hscore]
    norm_num
  · have h1 : ¬ ((9 : ℚ)/10 < 6/10) := by norm_num
    simp [score_event_core, text_hits_fold, rs8, tr8, f8, h1]

/-- C9 counterexample: a malformed body and an internal enqueue failure both
land in the endpoint's single `except` handler and both return status 500 —
the malformed body is not reported with a client-error (4xx) status, and the
two failure kinds share the same status class. -/
theorem malformed_body_status_counterexample :
    (start_replay (.error "Expecting value: line 1 column 1 (char 0)")
        send_ok).status = 500 ∧
    (start_replay (.ok b6) send_fail).status = 500 ∧
    ¬ (400 ≤ (start_replay (.error "Expecting value: line 1 column 1 (char 0)")
          send_ok).status ∧
       (start_replay (.error "Expecting value: line 1 column 1 (char 0)")
          send_ok).status < 500) := by
  refine ⟨rfl, rfl, ?_⟩
  simp [start_replay]

/-- C9 amended: the endpoint returns 202 "Replay scheduled" when decoding and
enqueueing succeed; any exception — malformed body or internal enqueue
failure alike — is caught by the single handler and returned as status 500
with the error detail as body, so malformed bodies are reported with the
server-error class, not a distinct client-error class. -/
theorem http_status_classes_amended (e msg : String) (body : ReplayBody)
    (send : ReplayBody → Except String Unit) :
    start_replay (.error e) send = ⟨500, e⟩ ∧
    (send body = .error msg → start_replay (.ok body) send = ⟨500, msg⟩) ∧
    (send body = .ok () → start_replay (.ok body) send
      = ⟨202, "Replay scheduled"⟩) := by
  refine ⟨rfl, fun h => ?_, fun h => ?_⟩ <;> simp [start_replay, h]

/-- Witness for C9 amended at concrete inputs: a JSON decode error gives 500
with the decode message, a storage failure gives 500 with its message, and
the well-formed happy path gives 202. -/
theorem http_status_classes_amended_witness :
    start_replay (.error "Expecting value") send_ok
      = ⟨500, "Expecting value"⟩ ∧
    start_replay (.ok b7) send_fail = ⟨500, "storage unavailable"⟩ ∧
    start_replay (.ok b7) send_ok = ⟨202, "Replay scheduled"⟩ := by
  obtain ⟨h1, h2, -⟩ :=
    http_status_classes_amended "Expecting value" "storage unavailable" b7 send_fail
  obtain ⟨-, -, h3⟩ :=
    http_status_classes_amended "Expecting value" "storage unavailable" b7 send_ok
  exact ⟨h1, h2 rfl, h3 rfl⟩

/-- C10: `load_active_ruleset` returns two different shapes: on the SQL path
(`USE_SQL_RULES=1` with a usable ACTIVE row) a single dict carrying the
`version` key, on the YAML fallback path a `(ruleset, version)` pair; tuple
unpacking only succeeds on the fallback path and `["version"]` indexing only
succeeds on the SQL path. -/
theorem load_active_ruleset_shapes (fetch : Except Unit (Option RulesRow))
    (parse_yaml : String → Ruleset) (file_yaml : Ruleset) :
    (∀ row y, fetch = .ok (some row) → row.ruleset_yaml = some y → y ≠ "" →
      load_active_ruleset true fetch parse_yaml file_yaml
        = .dict { parse_yaml y with version := some row.version } ∧
      unpack_as_pair (load_active_ruleset true fetch parse_yaml file_yaml)
        = none ∧
      index_version (load_active_ruleset true fetch parse_yaml file_yaml)
        = some row.version) ∧
    (load_active_ruleset false fetch parse_yaml file_yaml
       = .pair file_yaml (file_yaml.version.getD "dev") ∧
     unpack_as_pair (load_active_ruleset false fetch parse_yaml file_yaml)
       = some (file_yaml, file_yaml.version.getD "dev") ∧
     index_version (load_active_ruleset false fetch parse_yaml file_yaml)
       = none) := by
  constructor
  · intro row y hf hy hne
    have hload : load_active_ruleset true fetch parse_yaml file_yaml
        = .dict { parse_yaml y with version := some row.version } := by
      simp [load_active_ruleset, hf, hy, hne]
    exact ⟨hload, by rw [hload]; rfl, by rw [hload]; rfl⟩
  · exact ⟨rfl, rfl, rfl⟩

/-- Witness for C10: with `USE_SQL_RULES=1` and the fixture ACTIVE row, the
result is a dict whose version is the row's, tuple unpacking fails and
`["version"]` indexing succeeds; with the flag off, the result is a pair,
tuple unpacking succeeds and `["version"]` indexing fails. -/
theorem load_active_ruleset_shapes_witness :
    load_active_ruleset true (.ok (some rowA)) parseA rsW
      = .dict { rsW with version := some "2024-05-01" } ∧
    unpack_as_pair (load_active_ruleset true (.ok (some rowA)) parseA rsW)
      = none ∧
    index_version (load_active_ruleset true (.ok (some rowA)) parseA rsW)
      = some "2024-05-01" ∧
    unpack_as_pair (load_active_ruleset false (.ok (some rowA)) parseA rsW)
      = some (rsW, "dev") ∧
    index_version (load_active_ruleset false (.ok (some rowA)) parseA rsW)
      = none := by
  obtain ⟨hsql, hfall⟩ :=
    load_active_ruleset_shapes (.ok (some rowA)) parseA rsW
  obtain ⟨h1, h2, h3⟩ := hsql rowA "weights: {}" rfl rfl (by simp)
  obtain ⟨-, h4, h5⟩ := hfall
  exact ⟨h1, h2, h3, by rw [h4]; rfl, h5⟩

end Retention
